import Mathlib

/-!
Verification of the order-integration-service saga orchestrator.

The definitions below are a shallow embedding of the Python sources:
* `integration_service/workflow.py`  — `process_order_workflow`
* `integration_service/clients.py`   — the Inventory / Payment / WMS adapters
  and the WMS status-listener callback
* `integration_service/models.py`    — pydantic validation
* `integration_service/main.py`      — the intake endpoint

Side-effecting calls (gRPC, HTTP, AMQP) are modelled by an environment
record describing the outcome of each outbound call; the workflow is a
pure function from that environment to the ordered trace of observable
events (outbound calls and log records).
-/

namespace OrderIntegration

/-- One item of an order: `OrderItem` in `models.py` (`sku`, `quantity`). -/
structure Item where
  sku : String
  quantity : Int
  deriving Repr, DecidableEq

/-- The validated order payload handed to the workflow
(`NewOrderRequest.dict()` in `main.py`). `totalAmount` is a Python
`float`, i.e. a binary64 value; the field holds its exact rational
value. -/
structure OrderData where
  orderId : String
  paymentToken : String
  totalAmount : Rat
  currency : String
  items : List Item
  deriving Repr, DecidableEq

/-- Model of Python `int()` applied to a number: truncation toward zero
(floor for non-negative arguments, ceiling for negative ones). -/
def pyInt (q : Rat) : Int := if 0 ≤ q then ⌊q⌋ else ⌈q⌉

/-! ### Binary64 arithmetic

`totalAmount` is a binary64 `float`: pydantic stores the double nearest
the decimal literal, and `totalAmount * 100` is an IEEE-754 multiply —
the exact product rounded to the nearest double (ties to even). `fl64`
is that rounding on the exact rationals, for positive arguments in the
normal range (no overflow/subnormal handling: the service's amounts are
far inside the normal range). -/

/-- Round a rational to the nearest integer, ties to even (the rounding
IEEE-754 round-to-nearest-even applies to the scaled significand). -/
def roundHalfEven (q : Rat) : Int :=
  if q - ⌊q⌋ < 1/2 then ⌊q⌋
  else if (1 : Rat)/2 < q - ⌊q⌋ then ⌊q⌋ + 1
  else if ⌊q⌋ % 2 = 0 then ⌊q⌋ else ⌊q⌋ + 1

/-- Round a positive rational to the nearest binary64 value: scale into
`[2^52, 2^53)` using the floor base-2 logarithm, round the significand to
the nearest integer (ties to even), and scale back. Non-positive
arguments map to zero (only non-negative amounts occur). -/
def fl64 (q : Rat) : Rat :=
  if q ≤ 0 then 0
  else (roundHalfEven (q * 2 ^ (52 - Int.log 2 q)) : Rat) * 2 ^ (-(52 - Int.log 2 q))

/-- Line 108 of `workflow.py`:
`amount_cents = int(order_data["totalAmount"] * 100)` under binary64
semantics — `totalAmount` is the stored double, `100` promotes to the
exact double `100.0`, the product is rounded by the hardware, and
`int()` truncates. -/
def amount_cents (totalAmount : Rat) : Int := pyInt (fl64 (totalAmount * 100))

/-- The amount charged for an order whose JSON `totalAmount` is the
decimal literal `lit`: pydantic parses the literal to the nearest double
(`fl64 lit`), then line 108 converts it to cents. -/
def amount_cents_of_literal (lit : Rat) : Int := amount_cents (fl64 lit)

/-- Characterization of the floor base-2 logarithm by its binade. -/
theorem int_log2_eq (q : Rat) (l : Int) (h0 : 0 < q)
    (h1 : (2 : Rat) ^ l ≤ q) (h2 : q < (2 : Rat) ^ (l + 1)) : Int.log 2 q = l := by
  have ha : l ≤ Int.log 2 q := by
    rw [← Int.zpow_le_iff_le_log (by norm_num) h0]
    exact_mod_cast h1
  have hb : Int.log 2 q < l + 1 := by
    rw [← Int.lt_zpow_iff_log_lt (by norm_num) h0]
    exact_mod_cast h2
  omega

/-- Rounding half-to-even of a non-negative rational is non-negative. -/
theorem roundHalfEven_nonneg (q : Rat) (h : 0 ≤ q) : 0 ≤ roundHalfEven q := by
  have hf : (0 : Int) ≤ ⌊q⌋ := Int.floor_nonneg.mpr h
  rw [roundHalfEven]
  split
  · exact hf
  split
  · omega
  split
  · exact hf
  · omega

/-- The binary64 rounding never produces a negative value. -/
theorem fl64_nonneg (q : Rat) : 0 ≤ fl64 q := by
  rw [fl64]
  split
  · exact le_refl 0
  · rename_i h
    have hq : (0 : Rat) < q := lt_of_not_ge h
    have h1 : (0 : Rat) ≤ q * 2 ^ (52 - Int.log 2 q) := by positivity
    have h2 : (0 : Int) ≤ roundHalfEven (q * 2 ^ (52 - Int.log 2 q)) :=
      roundHalfEven_nonneg _ h1
    have h3 : (0 : Rat) < 2 ^ (-(52 - Int.log 2 q)) := by positivity
    exact mul_nonneg (by exact_mod_cast h2) h3.le

/-- The double nearest the literal `0.29` is `5224175567749775 · 2⁻⁵⁴`. -/
theorem fl64_lit029 : fl64 (0.29 : Rat) = 5224175567749775 / 18014398509481984 := by
  have hlog : Int.log 2 (0.29 : Rat) = -2 :=
    int_log2_eq _ _ (by norm_num) (by norm_num) (by norm_num)
  rw [fl64, if_neg (by norm_num), hlog]
  norm_num [roundHalfEven]

/-- The rounded product `float(0.29) * 100` is `8162774324609023 · 2⁻⁴⁸`
(the double printed `28.999999999999996`). -/
theorem fl64_prod029 : fl64 ((5224175567749775 / 18014398509481984 : Rat) * 100) =
    8162774324609023 / 281474976710656 := by
  have hlog : Int.log 2 ((5224175567749775 / 18014398509481984 : Rat) * 100) = 4 :=
    int_log2_eq _ _ (by norm_num) (by norm_num) (by norm_num)
  rw [fl64, if_neg (by norm_num), hlog]
  norm_num [roundHalfEven]

/-- The double nearest the literal `14.12` is `7948853342308925 · 2⁻⁴⁹`,
slightly below `14.12`. -/
theorem fl64_lit1412 : fl64 (14.12 : Rat) = 7948853342308925 / 562949953421312 := by
  have hlog : Int.log 2 (14.12 : Rat) = 3 :=
    int_log2_eq _ _ (by norm_num) (by norm_num) (by norm_num)
  rw [fl64, if_neg (by norm_num), hlog]
  norm_num [roundHalfEven]

/-- The product `float(14.12) * 100` rounds up to exactly `1412.0`,
though the exact product is below `1412`. -/
theorem fl64_prod1412 : fl64 ((7948853342308925 / 562949953421312 : Rat) * 100) = 1412 := by
  have hlog : Int.log 2 ((7948853342308925 / 562949953421312 : Rat) * 100) = 10 :=
    int_log2_eq _ _ (by norm_num) (by norm_num) (by norm_num)
  rw [fl64, if_neg (by norm_num), hlog]
  norm_num [roundHalfEven]

/-- The double nearest the literal `149.995`. -/
theorem fl64_lit149995 : fl64 (149.995 : Rat) = 1319369972866089 / 8796093022208 := by
  have hlog : Int.log 2 (149.995 : Rat) = 7 :=
    int_log2_eq _ _ (by norm_num) (by norm_num) (by norm_num)
  rw [fl64, if_neg (by norm_num), hlog]
  norm_num [roundHalfEven]

/-- The rounded product `float(149.995) * 100` is exactly `14999.5`. -/
theorem fl64_prod149995 : fl64 ((1319369972866089 / 8796093022208 : Rat) * 100) =
    29999 / 2 := by
  have hlog : Int.log 2 ((1319369972866089 / 8796093022208 : Rat) * 100) = 13 :=
    int_log2_eq _ _ (by norm_num) (by norm_num) (by norm_num)
  rw [fl64, if_neg (by norm_num), hlog]
  norm_num [roundHalfEven]

/-- The double nearest the literal `149.99`. -/
theorem fl64_lit14999 : fl64 (149.99 : Rat) = 659662996200489 / 4398046511104 := by
  have hlog : Int.log 2 (149.99 : Rat) = 7 :=
    int_log2_eq _ _ (by norm_num) (by norm_num) (by norm_num)
  rw [fl64, if_neg (by norm_num), hlog]
  norm_num [roundHalfEven]

/-- The rounded product `float(149.99) * 100` is exactly `14999.0` (an
exact tie resolved to the even significand). -/
theorem fl64_prod14999 : fl64 ((659662996200489 / 4398046511104 : Rat) * 100) = 14999 := by
  have hlog : Int.log 2 ((659662996200489 / 4398046511104 : Rat) * 100) = 13 :=
    int_log2_eq _ _ (by norm_num) (by norm_num) (by norm_num)
  rw [fl64, if_neg (by norm_num), hlog]
  norm_num [roundHalfEven]

/-- Claim C2, counterexample: the amount is not `floor(totalAmount*100)`
for every non-negative amount. An order with `totalAmount = 0.29` is
charged 28 cents, not `floor(0.29 * 100) = 29`, because
`float(0.29) * 100` rounds to `28.999999999999996`; and even reading
`totalAmount` as the stored double, the order `14.12` is charged 1412
cents though the exact product of its double by 100 floors to 1411,
because the IEEE multiply rounds up to `1412.0`. -/
theorem amount_cents_float_counterexample :
    amount_cents_of_literal (0.29 : Rat) = 28 ∧ ⌊(0.29 : Rat) * 100⌋ = 29 ∧
    amount_cents (fl64 (14.12 : Rat)) = 1412 ∧ ⌊fl64 (14.12 : Rat) * 100⌋ = 1411 := by
  refine ⟨?_, by norm_num, ?_, ?_⟩
  · rw [amount_cents_of_literal, fl64_lit029, amount_cents, fl64_prod029]
    norm_num [pyInt]
  · rw [fl64_lit1412, amount_cents, fl64_prod1412]
    norm_num [pyInt]
  · rw [fl64_lit1412]
    norm_num

/-- Claim C2 amended: the amount sent is `int(totalAmount * 100)` in
binary64 — the truncation (equivalently, the floor, the product being
non-negative) of the correctly-rounded double product — and for the
scenario literals `149.995` and `149.99` this yields 14999 cents; the
exact-arithmetic law `floor(totalAmount * 100)` does not hold in
general. -/
theorem amount_cents_binary64 (x : Rat) :
    amount_cents x = ⌊fl64 (x * 100)⌋ ∧
    amount_cents_of_literal (149.995 : Rat) = 14999 ∧
    amount_cents_of_literal (149.99 : Rat) = 14999 := by
  refine ⟨?_, ?_, ?_⟩
  · rw [amount_cents, pyInt, if_pos (fl64_nonneg _)]
  · rw [amount_cents_of_literal, fl64_lit149995, amount_cents, fl64_prod149995]
    norm_num [pyInt]
  · rw [amount_cents_of_literal, fl64_lit14999, amount_cents, fl64_prod14999]
    norm_num [pyInt]

/-! ## JSON values

A small JSON value type, used for the shipment-instruction body and for
the status-consumer payloads. Numbers are modelled as integers (the only
numbers the service serialises are item quantities). -/

inductive Json where
  | null : Json
  | bool (b : Bool) : Json
  | num (n : Int) : Json
  | str (s : String) : Json
  | arr (elems : List Json) : Json
  | obj (fields : List (String × Json)) : Json

/-- Whether a JSON value is an object (a Python `dict`, the only values
with a `.get` method). -/
def Json.isObj : Json → Bool
  | .obj _ => true
  | _ => false

/-- Python `dict.get(key, default)` on a JSON object given as a field list. -/
def jsonGetD (fields : List (String × Json)) (key : String) (dflt : Json) : Json :=
  match fields.find? (fun kv => kv.1 == key) with
  | some kv => kv.2
  | none => dflt

/-! ## Status consumer (`clients.py` `start_wms_status_listener`, lines 226-236)

The callback receives the delivered body as bytes; `json.loads(body)`
either raises `UnicodeDecodeError` (the bytes are not valid UTF-8;
modelled `ParseResult.undecodable`), raises `JSONDecodeError` (the
decoded text is not JSON; modelled `ParseResult.failure`), or yields a
JSON value. `UnicodeDecodeError` is not a `json.JSONDecodeError`, so the
callback's `except` clause does not catch it. The callback's observable
actions, in order, are modelled as a list. -/

/-- Outcome of `json.loads(body)` on the delivered bytes. -/
inductive ParseResult where
  | undecodable : ParseResult
  | failure : ParseResult
  | ok (j : Json) : ParseResult

/-- Observable actions of the status-consumer callback, in program order. -/
inductive CEvent where
  | logUpdate (orderId status : Json) : CEvent
  | logError : CEvent
  | ack : CEvent
  | nackNoRequeue : CEvent

/-- The `callback` closure of `start_wms_status_listener`:
parse the body; on a JSON object, read `orderId` and `status` with default
`"UNKNOWN"`, log, then ack; on `JSONDecodeError`, log the error and nack
without requeue. Two outcomes escape the callback uncaught, with no
logging and no disposition at all: a JSON value that is not an object
(`data.get` raises `AttributeError`), and a body that is not valid UTF-8
(`json.loads` raises `UnicodeDecodeError`, which the
`except json.JSONDecodeError` clause does not catch). -/
def wms_status_callback : ParseResult → List CEvent
  | .undecodable => []
  | .failure => [.logError, .nackNoRequeue]
  | .ok (.obj fields) =>
      [.logUpdate (jsonGetD fields "orderId" (.str "UNKNOWN"))
                  (jsonGetD fields "status" (.str "UNKNOWN")),
       .ack]
  | .ok _ => []

/-- Claim C4, counterexample: the body `[]` parses as JSON (an array), yet
the callback issues no ack, no nack, and no log at all — `data.get`
raises `AttributeError` on a list — contradicting "acks the message if
and only if its body parses as JSON ... and issues no other disposition". -/
theorem wms_callback_nonobject_no_disposition :
    wms_status_callback (ParseResult.ok (Json.arr [])) = [] := rfl

/-- Claim C4 amended: the callback acks exactly the bodies that parse as
JSON *objects* (logging the update, with `orderId`/`status` defaulting to
`"UNKNOWN"`, before the ack); UTF-8 bodies that fail JSON parsing are
logged and nacked without requeue; bodies that are not valid UTF-8 raise
`UnicodeDecodeError` out of the callback with no log and no disposition;
bodies parsing to non-object JSON likewise get no disposition (the
handler raises `AttributeError`). -/
theorem wms_callback_dispositions (r : ParseResult) :
    (r = ParseResult.failure →
      wms_status_callback r = [CEvent.logError, CEvent.nackNoRequeue]) ∧
    (r = ParseResult.undecodable → wms_status_callback r = []) ∧
    (∀ fields, r = ParseResult.ok (Json.obj fields) →
      wms_status_callback r =
        [CEvent.logUpdate (jsonGetD fields "orderId" (Json.str "UNKNOWN"))
                          (jsonGetD fields "status" (Json.str "UNKNOWN")),
         CEvent.ack]) ∧
    (∀ j, r = ParseResult.ok j → j.isObj = false → wms_status_callback r = []) := by
  refine ⟨fun h => by subst h; rfl, fun h => by subst h; rfl,
    fun fields h => by subst h; rfl, fun j h hj => ?_⟩
  subst h
  cases j <;> simp_all [Json.isObj, wms_status_callback]

/-- Witness for the amended C4 at a message with both keys absent. -/
theorem wms_callback_dispositions_witness :
    wms_status_callback (ParseResult.ok (Json.obj [])) =
      [CEvent.logUpdate (Json.str "UNKNOWN") (Json.str "UNKNOWN"), CEvent.ack] := by
  have h := (wms_callback_dispositions (ParseResult.ok (Json.obj []))).2.2.1 [] rfl
  simpa [jsonGetD] using h

/-! ## Intake validation (`models.py`, `main.py`)

pydantic validates presence and types of the fields of `NewOrderRequest`
and checks `quantity > 0` (`Field(..., gt=0)`). There is no constraint on
the emptiness of `orderId` or of `items`. A raw (unvalidated) payload is
modelled with `Option` fields: `none` is a missing field. -/

/-- Raw item payload before validation. -/
structure RawOrderItem where
  sku : Option String
  quantity : Option Int

/-- Raw order payload before validation. -/
structure RawOrder where
  orderId : Option String
  paymentToken : Option String
  totalAmount : Option Rat
  currency : Option String
  items : Option (List RawOrderItem)

/-- pydantic validation of one `OrderItem`: both fields required,
`quantity` must be strictly positive. -/
def OrderItem.validate : RawOrderItem → Option Item
  | ⟨some s, some q⟩ => if 0 < q then some ⟨s, q⟩ else none
  | _ => none

/-- Validate each item in order; fail if any item fails. -/
def validateItems : List RawOrderItem → Option (List Item)
  | [] => some []
  | r :: rs =>
      match OrderItem.validate r, validateItems rs with
      | some i, some is2 => some (i :: is2)
      | _, _ => none

/-- pydantic validation of `NewOrderRequest`: all five fields required;
items validated elementwise. No constraint rejects an empty `orderId`
string or an empty `items` list. -/
def NewOrderRequest.validate (r : RawOrder) : Option OrderData :=
  match r.orderId with
  | none => none
  | some oid =>
  match r.paymentToken with
  | none => none
  | some tok =>
  match r.totalAmount with
  | none => none
  | some amt =>
  match r.currency with
  | none => none
  | some cur =>
  match r.items with
  | none => none
  | some its =>
  match validateItems its with
  | some vits => some ⟨oid, tok, amt, cur, vits⟩
  | none => none

/-- Claim C3, counterexample: a payload with an empty `orderId` string and
an empty `items` list passes validation and reaches the saga, contradicting
"Submit rejects ... missing or empty orderId, empty items list". -/
theorem validate_accepts_empty_orderId_and_items :
    NewOrderRequest.validate ⟨some "", some "tok", some 10, some "EUR", some []⟩ =
      some ⟨"", "tok", 10, "EUR", []⟩ := rfl

/-- A successfully validated item has positive quantity. -/
theorem OrderItem.validate_pos (r : RawOrderItem) (i : Item)
    (h : OrderItem.validate r = some i) : 0 < i.quantity := by
  rcases r with ⟨_ | s, _ | q⟩
  · exact Option.noConfusion h
  · exact Option.noConfusion h
  · exact Option.noConfusion h
  · by_cases hq : 0 < q
    · have hv : OrderItem.validate ⟨some s, some q⟩ = some ⟨s, q⟩ := by
        simp [OrderItem.validate, hq]
      rw [hv] at h
      cases Option.some.inj h
      exact hq
    · have hv : OrderItem.validate ⟨some s, some q⟩ = none := by
        simp [OrderItem.validate, hq]
      rw [hv] at h
      exact Option.noConfusion h

/-- Items produced by validation all have positive quantity. -/
theorem validateItems_pos (rs : List RawOrderItem) (its : List Item)
    (h : validateItems rs = some its) : ∀ it ∈ its, 0 < it.quantity := by
  induction rs generalizing its with
  | nil =>
      cases Option.some.inj h
      intro it hit
      cases hit
  | cons r rs ih =>
      simp only [validateItems] at h
      rcases hr : OrderItem.validate r with _ | i <;> rw [hr] at h
      · exact Option.noConfusion h
      rcases hrs : validateItems rs with _ | tl <;> rw [hrs] at h
      · exact Option.noConfusion h
      cases Option.some.inj h
      intro it hit
      rcases List.mem_cons.mp hit with hEq | hMem
      · subst hEq
        exact OrderItem.validate_pos r it hr
      · exact ih tl hrs it hMem

/-- Claim C3 amended: validation rejects payloads with a missing field or
any item of non-positive quantity, so every order reaching the saga has
all quantities strictly positive; but an empty `orderId` string and an
empty `items` list are accepted. -/
theorem validate_guarantees (r : RawOrder) :
    (r.orderId = none → NewOrderRequest.validate r = none) ∧
    (r.items = none → NewOrderRequest.validate r = none) ∧
    (∀ o, NewOrderRequest.validate r = some o → ∀ it ∈ o.items, 0 < it.quantity) := by
  rcases r with ⟨oid, tok, amt, cur, its⟩
  refine ⟨fun h => ?_, fun h => ?_, fun o h => ?_⟩
  · cases h
    rfl
  · cases h
    rcases oid with _ | oid <;> rcases tok with _ | tok <;>
      rcases amt with _ | amt <;> rcases cur with _ | cur <;> rfl
  · rcases oid with _ | oid
    · exact Option.noConfusion h
    rcases tok with _ | tok
    · exact Option.noConfusion h
    rcases amt with _ | amt
    · exact Option.noConfusion h
    rcases cur with _ | cur
    · exact Option.noConfusion h
    rcases its with _ | its
    · exact Option.noConfusion h
    simp only [NewOrderRequest.validate] at h
    rcases hv : validateItems its with _ | vits <;> rw [hv] at h
    · exact Option.noConfusion h
    · cases Option.some.inj h
      exact validateItems_pos its vits hv

/-- Witness for the amended C3: a payload missing `orderId` is rejected. -/
theorem validate_guarantees_witness :
    NewOrderRequest.validate ⟨none, some "tok", some 1, some "EUR", some []⟩ = none :=
  (validate_guarantees ⟨none, some "tok", some 1, some "EUR", some []⟩).1 rfl

/-! ## Shipment adapter (`clients.py` `WMSClient.send_shipment_instruction`)

`time.gmtime()` yields a broken-down UTC time; `time.strftime` with
format `"%Y-%m-%dT%H:%M:%SZ"` renders it with zero-padded fixed-width
fields. The broken-down time is modelled by `Tm`, the rendering by
`strftime_iso_z` (a character-exact model of the fixed-width format for
four-digit years). -/

/-- Broken-down UTC time as returned by `time.gmtime()`. -/
structure Tm where
  year : Nat
  month : Nat
  day : Nat
  hour : Nat
  minute : Nat
  sec : Nat
  deriving Repr, DecidableEq

/-- The decimal digit character of `n % 10`. -/
def dC (n : Nat) : Char := Nat.digitChar (n % 10)

/-- Model of `time.strftime("%Y-%m-%dT%H:%M:%SZ", t)`: zero-padded fixed-width
rendering `YYYY-MM-DDTHH:MM:SSZ`. -/
def strftime_iso_z (t : Tm) : String :=
  String.mk
    [dC (t.year / 1000), dC (t.year / 100), dC (t.year / 10), dC t.year, '-',
     dC (t.month / 10), dC t.month, '-',
     dC (t.day / 10), dC t.day, 'T',
     dC (t.hour / 10), dC t.hour, ':',
     dC (t.minute / 10), dC t.minute, ':',
     dC (t.sec / 10), dC t.sec, 'Z']

/-- Checks the shape `YYYY-MM-DDTHH:MM:SSZ`: twenty characters, digits in
the date/time positions, the literal separators, and a trailing `Z`. -/
def isIso8601Z (s : String) : Bool :=
  match s.data with
  | [y1, y2, y3, y4, c1, m1, m2, c2, d1, d2, c3, h1, h2, c4, n1, n2, c5, s1, s2, c6] =>
      y1.isDigit && y2.isDigit && y3.isDigit && y4.isDigit && c1 == '-' &&
      m1.isDigit && m2.isDigit && c2 == '-' &&
      d1.isDigit && d2.isDigit && c3 == 'T' &&
      h1.isDigit && h2.isDigit && c4 == ':' &&
      n1.isDigit && n2.isDigit && c5 == ':' &&
      s1.isDigit && s2.isDigit && c6 == 'Z'
  | _ => false

/-- A digit character of a residue modulo ten is a decimal digit. -/
theorem dC_isDigit (n : Nat) : (dC n).isDigit = true := by
  have h : n % 10 < 10 := Nat.mod_lt _ (by norm_num)
  unfold dC
  revert h
  generalize n % 10 = k
  intro h
  interval_cases k <;> decide

/-- The rendered timestamp always matches `YYYY-MM-DDTHH:MM:SSZ`. -/
theorem strftime_iso_z_shape (t : Tm) : isIso8601Z (strftime_iso_z t) = true := by
  simp [strftime_iso_z, isIso8601Z, dC_isDigit]

/-- JSON encoding of one item, as `json.dumps` serialises the item dict. -/
def Item.toJson (it : Item) : Json :=
  Json.obj [("sku", Json.str it.sku), ("quantity", Json.num it.quantity)]

/-- The hard-coded placeholder shipping address in
`WMSClient.send_shipment_instruction`. -/
def shippingAddressJson : Json :=
  Json.obj [("name", Json.str "Max Mustermann"), ("street", Json.str "Testweg 1")]

/-- The `message` dict built by `WMSClient.send_shipment_instruction`
(`clients.py` lines 181-187): `instructionId` is the fresh uuid of this
call, `instructionTimestamp` renders the current UTC time, `items` is the
order's item list passed through unchanged. -/
def shipment_message (uuidv4 : String) (t : Tm) (orderId : String)
    (items : List Item) : List (String × Json) :=
  [("instructionId", Json.str uuidv4),
   ("orderId", Json.str orderId),
   ("instructionTimestamp", Json.str (strftime_iso_z t)),
   ("items", Json.arr (items.map Item.toJson)),
   ("shippingAddress", shippingAddressJson)]

/-! ## Payment adapter (`clients.py` `PaymentClient.create_charge`) -/

/-- The outbound HTTP request assembled by `PaymentClient.create_charge`
(`clients.py` lines 115-125): endpoint `POST /v2/charges`, JSON payload
`{amount, currency, paymentToken, referenceId}`, and an
`Idempotency-Key` header holding the uuid generated for this call. -/
structure ChargeRequest where
  endpoint : String
  amount : Int
  currency : String
  paymentToken : String
  referenceId : String
  idempotencyKey : String
  deriving Repr, DecidableEq

/-- Request assembly of `PaymentClient.create_charge`; `uuidv4` is the value
of `str(uuid.uuid4())` drawn at the start of this call. -/
def create_charge_request (uuidv4 : String) (orderId token : String)
    (amountCents : Int) (currency : String) : ChargeRequest :=
  { endpoint := "/v2/charges"
    amount := amountCents
    currency := currency
    paymentToken := token
    referenceId := orderId
    idempotencyKey := uuidv4 }

/-- Arguments of one `create_charge` call made by the process. -/
structure ChargeArgs where
  orderId : String
  token : String
  amountCents : Int
  currency : String

/-- The request of the `i`-th `create_charge` call of the process, where
`supply i` is the `i`-th output of `uuid.uuid4()`: each call draws a fresh
uuid (`clients.py` line 115), never reusing an earlier one. -/
def nth_charge_request (supply : Nat → String) (args : Nat → ChargeArgs)
    (i : Nat) : ChargeRequest :=
  create_charge_request (supply i) (args i).orderId (args i).token
    (args i).amountCents (args i).currency

/-- Arguments of one `send_shipment_instruction` call made by the process. -/
structure ShipArgs where
  orderId : String
  items : List Item
  t : Tm

/-- The message of the `i`-th shipment publish of the process, with
`supply i` the `i`-th output of `uuid.uuid4()` (`clients.py` line 182). -/
def nth_shipment_message (supply : Nat → String) (args : Nat → ShipArgs)
    (i : Nat) : List (String × Json) :=
  shipment_message (supply i) (args i).t (args i).orderId (args i).items

/-- Claim C9: the `Idempotency-Key` header is the uuid freshly drawn for
that call, and the `instructionId` is the uuid freshly drawn for that
publish; hence any two calls whose uuid draws differ (as uuid4 outputs do)
carry distinct keys and distinct instruction ids. -/
theorem fresh_ids_distinct (supply : Nat → String) (cargs : Nat → ChargeArgs)
    (sargs : Nat → ShipArgs) (i j : Nat) (h : supply i ≠ supply j) :
    (nth_charge_request supply cargs i).idempotencyKey ≠
      (nth_charge_request supply cargs j).idempotencyKey ∧
    jsonGetD (nth_shipment_message supply sargs i) "instructionId" Json.null ≠
      jsonGetD (nth_shipment_message supply sargs j) "instructionId" Json.null := by
  constructor
  · simpa [nth_charge_request, create_charge_request] using h
  · have hi : jsonGetD (nth_shipment_message supply sargs i) "instructionId" Json.null =
        Json.str (supply i) := by
      simp [nth_shipment_message, shipment_message, jsonGetD]
    have hj : jsonGetD (nth_shipment_message supply sargs j) "instructionId" Json.null =
        Json.str (supply j) := by
      simp [nth_shipment_message, shipment_message, jsonGetD]
    rw [hi, hj]
    intro hEq
    exact h (Json.str.inj hEq)

/-- Witness for C9 at two calls with distinct uuid draws. -/
theorem fresh_ids_distinct_witness :
    (nth_charge_request (fun n => if n = 0 then "uuid-a" else "uuid-b")
        (fun _ => ⟨"o1", "tok", 14999, "EUR"⟩) 0).idempotencyKey ≠
      (nth_charge_request (fun n => if n = 0 then "uuid-a" else "uuid-b")
        (fun _ => ⟨"o1", "tok", 14999, "EUR"⟩) 1).idempotencyKey ∧
    jsonGetD (nth_shipment_message (fun n => if n = 0 then "uuid-a" else "uuid-b")
        (fun _ => ⟨"o1", [⟨"A", 2⟩], ⟨2026, 10, 12, 0, 0, 0⟩⟩) 0) "instructionId" Json.null ≠
      jsonGetD (nth_shipment_message (fun n => if n = 0 then "uuid-a" else "uuid-b")
        (fun _ => ⟨"o1", [⟨"A", 2⟩], ⟨2026, 10, 12, 0, 0, 0⟩⟩) 1) "instructionId" Json.null :=
  fresh_ids_distinct (fun n => if n = 0 then "uuid-a" else "uuid-b")
    (fun _ => ⟨"o1", "tok", 14999, "EUR"⟩)
    (fun _ => ⟨"o1", [⟨"A", 2⟩], ⟨2026, 10, 12, 0, 0, 0⟩⟩) 0 1 (by decide)

/-! ## Saga orchestrator (`workflow.py` `process_order_workflow`)

The outcome of each outbound call is drawn from an environment record;
the workflow is the pure function from environment and order to the
ordered trace of observable events. Each branch of the Lean `match`
mirrors one control path of the Python function, including which `except`
clause catches a raised exception. -/

/-- Model of `inventory_pb2.ReservationStatus`; `unknown` covers every enum value
other than the three the workflow compares against. -/
inductive ReservationStatus where
  | reserved : ReservationStatus
  | outOfStock : ReservationStatus
  | itemNotFound : ReservationStatus
  | unknown (code : Nat) : ReservationStatus
  deriving Repr, DecidableEq

/-- Outcome of `InventoryClient.reserve_items`: a response carrying a
status and reservation id, or a raised `grpc.RpcError`. -/
inductive ReserveOutcome where
  | response (status : ReservationStatus) (reservationId : String) : ReserveOutcome
  | rpcError : ReserveOutcome
  deriving Repr, DecidableEq

/-- Outcome of `PaymentClient.create_charge`: a 2xx JSON response with a
transaction id, a raised `httpx.HTTPStatusError` (from
`raise_for_status()`, so `code ≥ 400`), or a raised transport error. -/
inductive ChargeOutcome where
  | success (txId : String) : ChargeOutcome
  | httpStatusError (code : Nat) : ChargeOutcome
  | readTimeout : ChargeOutcome
  | connectError : ChargeOutcome
  deriving Repr, DecidableEq

/-- Outcome of `InventoryClient.release_items_compensation`: success, or a
raised `grpc.RpcError` (logged critical in the adapter, then re-raised). -/
inductive ReleaseOutcome where
  | ok : ReleaseOutcome
  | rpcError : ReleaseOutcome
  deriving Repr, DecidableEq

/-- Outcome of Step 3 (`WMSClient` construction plus
`send_shipment_instruction`): success, a raised
`pika.exceptions.AMQPError`, or some other raised exception. -/
inductive PublishOutcome where
  | ok : PublishOutcome
  | amqpError : PublishOutcome
  | otherError : PublishOutcome
  deriving Repr, DecidableEq

/-- Environment: outcome of each outbound call the workflow may make, the
uuid draws, and the current UTC time. -/
structure Env where
  reserve : ReserveOutcome
  charge : ChargeOutcome
  release : ReleaseOutcome
  publishO : PublishOutcome
  chargeUuid : String
  instructionUuid : String
  now : Tm
  deriving Repr, DecidableEq

/-- Log severity (Python `logging` levels used by the service). -/
inductive Severity where
  | info : Severity
  | warning : Severity
  | error : Severity
  | critical : Severity
  deriving Repr, DecidableEq

/-- Which log statement fired (one tag per `log.*` call in the sources). -/
inductive LogTag where
  | startProcessing : LogTag
  | step1 : LogTag
  | outOfStock : LogTag
  | itemNotFound : LogTag
  | unknownInventory : LogTag
  | reservedOk : LogTag
  | step2 : LogTag
  | paymentSuccess : LogTag
  | paymentHttpFailed : LogTag
  | compensationOk : LogTag
  | compensationFailed : LogTag
  | paymentUnreachable : LogTag
  | compensationAfterPsOk : LogTag
  | step3 : LogTag
  | shipmentSent : LogTag
  | workflowDone : LogTag
  | reserveAdapterFailed : LogTag
  | grpcAborted : LogTag
  | wmsSendError : LogTag
  | mqAborted : LogTag
  | unknownError : LogTag
  | emergencyCompensation : LogTag
  | releaseAdapterSend : LogTag
  | releaseAdapterFailed : LogTag
  deriving Repr, DecidableEq

/-- Observable events of one workflow run, in program order. -/
inductive Event where
  | reserveItems (orderId : String) (items : List Item) : Event
  | createCharge (req : ChargeRequest) : Event
  | releaseItems (orderId : String) : Event
  | publish (queue : String) (body : List (String × Json)) (deliveryMode : Nat) : Event
  | log (sev : Severity) (tag : LogTag) (orderId : String) : Event

/-- The trace of `process_order_workflow(order_data)` under environment
`env`. Control flow mirrors `workflow.py` lines 75-169:

* non-`RESERVED` statuses return after a log (lines 90-100);
* a `grpc.RpcError` from Step 1 reaches the handler at line 147 — no
  compensation;
* an `httpx.HTTPStatusError` from Step 2 compensates inside a nested
  `try` (lines 119-129): a failing release logs critical in the adapter
  and again in the workflow, then returns;
* `httpx.ReadTimeout`/`ConnectError` compensates without a nested `try`
  (lines 131-138): a failing release raises `grpc.RpcError` out to the
  handler at line 147;
* an `AMQPError` in Step 3 reaches the handler at line 151: critical log,
  no compensation;
* any other exception in Step 3 reaches the handler at line 157: critical
  log, then emergency release because `reservation.status == RESERVED`. -/
def process_order_workflow (env : Env) (order : OrderData) : List Event :=
  let oid := order.orderId
  let start := [Event.log .info .startProcessing oid,
                Event.log .info .step1 oid,
                Event.reserveItems oid order.items]
  match env.reserve with
  | .rpcError =>
      start ++ [Event.log .error .reserveAdapterFailed oid,
                Event.log .error .grpcAborted oid]
  | .response status _rid =>
    match status with
    | .outOfStock => start ++ [Event.log .warning .outOfStock oid]
    | .itemNotFound => start ++ [Event.log .error .itemNotFound oid]
    | .unknown _ => start ++ [Event.log .error .unknownInventory oid]
    | .reserved =>
      let s2 := start ++ [Event.log .info .reservedOk oid,
                          Event.log .info .step2 oid]
      let req := create_charge_request env.chargeUuid oid order.paymentToken
                   (amount_cents order.totalAmount) order.currency
      let chargeEv := Event.createCharge req
      match env.charge with
      | .httpStatusError _code =>
          let comp := s2 ++ [chargeEv,
                             Event.log .error .paymentHttpFailed oid,
                             Event.log .info .releaseAdapterSend oid,
                             Event.releaseItems oid]
          match env.release with
          | .ok => comp ++ [Event.log .info .compensationOk oid]
          | .rpcError => comp ++ [Event.log .critical .releaseAdapterFailed oid,
                                  Event.log .critical .compensationFailed oid]
      | .readTimeout =>
          let comp := s2 ++ [chargeEv,
                             Event.log .error .paymentUnreachable oid,
                             Event.log .info .releaseAdapterSend oid,
                             Event.releaseItems oid]
          match env.release with
          | .ok => comp ++ [Event.log .info .compensationAfterPsOk oid]
          | .rpcError => comp ++ [Event.log .critical .releaseAdapterFailed oid,
                                  Event.log .error .grpcAborted oid]
      | .connectError =>
          let comp := s2 ++ [chargeEv,
                             Event.log .error .paymentUnreachable oid,
                             Event.log .info .releaseAdapterSend oid,
                             Event.releaseItems oid]
          match env.release with
          | .ok => comp ++ [Event.log .info .compensationAfterPsOk oid]
          | .rpcError => comp ++ [Event.log .critical .releaseAdapterFailed oid,
                                  Event.log .error .grpcAborted oid]
      | .success _tx =>
          let s3 := s2 ++ [chargeEv,
                           Event.log .info .paymentSuccess oid,
                           Event.log .info .step3 oid]
          match env.publishO with
          | .ok =>
              s3 ++ [Event.publish "wms.orders.new"
                       (shipment_message env.instructionUuid env.now oid order.items) 2,
                     Event.log .info .shipmentSent oid,
                     Event.log .info .workflowDone oid]
          | .amqpError =>
              s3 ++ [Event.log .error .wmsSendError oid,
                     Event.log .critical .mqAborted oid]
          | .otherError =>
              let e := s3 ++ [Event.log .error .wmsSendError oid,
                              Event.log .critical .unknownError oid,
                              Event.log .info .emergencyCompensation oid,
                              Event.log .info .releaseAdapterSend oid,
                              Event.releaseItems oid]
              match env.release with
              | .ok => e
              | .rpcError => e ++ [Event.log .critical .releaseAdapterFailed oid]

/-- Whether a Step 2 charge outcome is a failure (any raised exception:
HTTP status ≥ 400 from `raise_for_status`, read timeout, connect error). -/
def ChargeOutcome.failed : ChargeOutcome → Bool
  | .success _ => false
  | _ => true

/-- Whether Step 1 failed: RPC error, or any response status other than
`RESERVED`. -/
def ReserveOutcome.failed : ReserveOutcome → Bool
  | .rpcError => true
  | .response s _ => s != .reserved

/-- Event predicate: a `ReleaseItems` call for the given order. -/
def Event.isReleaseFor (oid : String) : Event → Bool
  | .releaseItems o => o == oid
  | _ => false

/-- Event predicate: any queue publish (Step 3's `basic_publish`). -/
def Event.isPublish : Event → Bool
  | .publish _ _ _ => true
  | _ => false

/-- Event predicate: any `create_charge` HTTP call. -/
def Event.isCharge : Event → Bool
  | .createCharge _ => true
  | _ => false

/-- Event predicate: a critical-severity log for the given order. -/
def Event.isCriticalFor (oid : String) : Event → Bool
  | .log .critical _ o => o == oid
  | _ => false

/-- Event predicate: any `ReleaseItems` call, for any order. -/
def Event.isRelease : Event → Bool
  | .releaseItems _ => true
  | _ => false

/-- The order of scenario S1. -/
def orderS1 : OrderData := ⟨"o1", "tok_ok", 149.99, "EUR", [⟨"A", 2⟩]⟩

/-- A fixed broken-down UTC time for witnesses. -/
def tm0 : Tm := ⟨2026, 10, 12, 0, 0, 0⟩

/-- Environment: reservation succeeds, payment declined with HTTP 402,
compensation succeeds. -/
def envPayDeclined : Env :=
  ⟨.response .reserved "r1", .httpStatusError 402, .ok, .ok, "u-charge", "u-instr", tm0⟩

/-- Environment: reservation returns OUT_OF_STOCK. -/
def envOutOfStock : Env :=
  ⟨.response .outOfStock "", .success "tx", .ok, .ok, "u1", "u2", tm0⟩

/-- Environment: reservation and payment succeed, Step 3 raises an
`AMQPError`. -/
def envAmqpFail : Env :=
  ⟨.response .reserved "r1", .success "tx", .ok, .amqpError, "u1", "u2", tm0⟩

/-- Environment: payment fails with HTTP 500 and the compensating release
also fails. -/
def envCompFail : Env :=
  ⟨.response .reserved "r1", .httpStatusError 500, .rpcError, .ok, "u1", "u2", tm0⟩

/-- Environment: reservation and payment succeed, Step 3 raises a
non-AMQP exception. -/
def envOtherFail : Env :=
  ⟨.response .reserved "r1", .success "tx", .ok, .otherError, "u1", "u2", tm0⟩

/-- Environment of the happy path. -/
def envHappy : Env :=
  ⟨.response .reserved "r1", .success "tx", .ok, .ok, "u1", "u2", tm0⟩

/-- Claim C1: when reservation returned `RESERVED` and the charge fails
(HTTP status error — including 402 — or transport failure), the trace
contains exactly one `ReleaseItems(orderId)` call and no Step 3 publish. -/
theorem payment_failure_compensates_once (env : Env) (order : OrderData) (rid : String)
    (h1 : env.reserve = .response .reserved rid) (h2 : env.charge.failed = true) :
    ((process_order_workflow env order).countP (Event.isReleaseFor order.orderId) = 1) ∧
    ((process_order_workflow env order).countP Event.isPublish = 0) := by
  rcases env with ⟨res, ch, rel, pub, cu, iu, now⟩
  cases h1
  cases ch <;> simp only [ChargeOutcome.failed] at h2
  · exact absurd h2 (by simp)
  all_goals cases rel <;>
    simp [process_order_workflow, Event.isReleaseFor, Event.isPublish,
          List.countP_append, List.countP_cons]

/-- Witness for C1: payment declined (HTTP 402) after a successful
reservation. -/
theorem payment_failure_compensates_once_witness :
    ((process_order_workflow envPayDeclined orderS1).countP
        (Event.isReleaseFor orderS1.orderId) = 1) ∧
    ((process_order_workflow envPayDeclined orderS1).countP Event.isPublish = 0) :=
  payment_failure_compensates_once envPayDeclined orderS1 "r1" rfl rfl

/-- Claim C5: when Step 1 fails (RPC error, `OUT_OF_STOCK`,
`ITEM_NOT_FOUND`, or any other non-`RESERVED` status), the saga terminates
with no charge call, no publish, and no `ReleaseItems`. -/
theorem step1_failure_no_calls (env : Env) (order : OrderData)
    (h : env.reserve.failed = true) :
    ((process_order_workflow env order).countP Event.isCharge = 0) ∧
    ((process_order_workflow env order).countP Event.isPublish = 0) ∧
    ((process_order_workflow env order).countP Event.isRelease = 0) := by
  rcases env with ⟨res, ch, rel, pub, cu, iu, now⟩
  rcases res with ⟨status, rid⟩ | _
  · cases status <;> simp only [ReserveOutcome.failed] at h
    · exact absurd h (by simp)
    all_goals
      simp [process_order_workflow, Event.isCharge, Event.isPublish, Event.isRelease,
            List.countP_append, List.countP_cons]
  · simp [process_order_workflow, Event.isCharge, Event.isPublish, Event.isRelease,
          List.countP_append, List.countP_cons]

/-- Witness for C5: reservation returns `OUT_OF_STOCK`. -/
theorem step1_failure_no_calls_witness :
    ((process_order_workflow envOutOfStock orderS1).countP Event.isCharge = 0) ∧
    ((process_order_workflow envOutOfStock orderS1).countP Event.isPublish = 0) ∧
    ((process_order_workflow envOutOfStock orderS1).countP Event.isRelease = 0) :=
  step1_failure_no_calls envOutOfStock orderS1 rfl

/-- Claim C6: when reservation and payment succeed and the Step 3 publish
raises an `AMQPError`, the saga terminates with a critical log carrying
the `orderId` and without invoking `ReleaseItems` (nor any payment
reversal — no such operation exists in the workflow's event vocabulary). -/
theorem step3_amqp_failure_alerts (env : Env) (order : OrderData) (rid tx : String)
    (h1 : env.reserve = .response .reserved rid) (h2 : env.charge = .success tx)
    (h3 : env.publishO = .amqpError) :
    ((process_order_workflow env order).countP (Event.isCriticalFor order.orderId) = 1) ∧
    ((process_order_workflow env order).countP Event.isRelease = 0) := by
  rcases env with ⟨res, ch, rel, pub, cu, iu, now⟩
  cases h1
  cases h2
  cases h3
  simp [process_order_workflow, Event.isCriticalFor, Event.isRelease,
        List.countP_append, List.countP_cons]

/-- Witness for C6. -/
theorem step3_amqp_failure_alerts_witness :
    ((process_order_workflow envAmqpFail orderS1).countP
        (Event.isCriticalFor orderS1.orderId) = 1) ∧
    ((process_order_workflow envAmqpFail orderS1).countP Event.isRelease = 0) :=
  step3_amqp_failure_alerts envAmqpFail orderS1 "r1" "tx" rfl rfl rfl

/-- Claim C7: when the charge fails (status or transport failure) and the
compensating release itself fails, the trace carries at least one
critical-severity log for the order and Step 3 never runs. -/
theorem compensation_failure_alerts (env : Env) (order : OrderData) (rid : String)
    (h1 : env.reserve = .response .reserved rid) (h2 : env.charge.failed = true)
    (h3 : env.release = .rpcError) :
    (1 ≤ (process_order_workflow env order).countP (Event.isCriticalFor order.orderId)) ∧
    ((process_order_workflow env order).countP Event.isPublish = 0) := by
  rcases env with ⟨res, ch, rel, pub, cu, iu, now⟩
  cases h1
  cases h3
  cases ch <;> simp only [ChargeOutcome.failed] at h2
  · exact absurd h2 (by simp)
  all_goals
    simp [process_order_workflow, Event.isCriticalFor, Event.isPublish,
          List.countP_append, List.countP_cons]

/-- Witness for C7: HTTP 500 charge failure, failing release. -/
theorem compensation_failure_alerts_witness :
    (1 ≤ (process_order_workflow envCompFail orderS1).countP
        (Event.isCriticalFor orderS1.orderId)) ∧
    ((process_order_workflow envCompFail orderS1).countP Event.isPublish = 0) :=
  compensation_failure_alerts envCompFail orderS1 "r1" rfl rfl rfl

/-- Claim C10: when reservation returned `RESERVED`, the charge succeeded,
and Step 3 raises an exception that is neither a gRPC error nor an AMQP
error, the catch-all handler attempts an emergency `ReleaseItems(orderId)`
even though the payment already succeeded. -/
theorem unexpected_failure_emergency_release (env : Env) (order : OrderData)
    (rid tx : String) (h1 : env.reserve = .response .reserved rid)
    (h2 : env.charge = .success tx) (h3 : env.publishO = .otherError) :
    (process_order_workflow env order).countP (Event.isReleaseFor order.orderId) = 1 := by
  rcases env with ⟨res, ch, rel, pub, cu, iu, now⟩
  cases h1
  cases h2
  cases h3
  cases rel <;>
    simp [process_order_workflow, Event.isReleaseFor,
          List.countP_append, List.countP_cons]

/-- Witness for C10: non-AMQP failure during Step 3 after a successful
charge. -/
theorem unexpected_failure_emergency_release_witness :
    (process_order_workflow envOtherFail orderS1).countP
        (Event.isReleaseFor orderS1.orderId) = 1 :=
  unexpected_failure_emergency_release envOtherFail orderS1 "r1" "tx" rfl rfl rfl

/-- Key list and field lookups of the shipment message. -/
theorem shipment_message_fields (u : String) (t : Tm) (oid : String) (items : List Item) :
    (shipment_message u t oid items).map Prod.fst =
      ["instructionId", "orderId", "instructionTimestamp", "items", "shippingAddress"] ∧
    jsonGetD (shipment_message u t oid items) "orderId" Json.null = Json.str oid ∧
    jsonGetD (shipment_message u t oid items) "items" Json.null =
      Json.arr (items.map Item.toJson) ∧
    jsonGetD (shipment_message u t oid items) "instructionTimestamp" Json.null =
      Json.str (strftime_iso_z t) := by
  refine ⟨rfl, ?_, ?_, ?_⟩ <;> simp [shipment_message, jsonGetD]

/-- Claim C8: every publish event of any workflow run goes to queue
`wms.orders.new` with `delivery_mode = 2`; its body has exactly the five
fields `instructionId`, `orderId`, `instructionTimestamp`, `items`,
`shippingAddress`; the `items` field is the order's item list in its
original order; the timestamp matches `YYYY-MM-DDTHH:MM:SSZ`. -/
theorem publish_shape (env : Env) (order : OrderData) (q : String)
    (body : List (String × Json)) (dm : Nat)
    (h : Event.publish q body dm ∈ process_order_workflow env order) :
    q = "wms.orders.new" ∧ dm = 2 ∧
    body.map Prod.fst =
      ["instructionId", "orderId", "instructionTimestamp", "items", "shippingAddress"] ∧
    jsonGetD body "orderId" Json.null = Json.str order.orderId ∧
    jsonGetD body "items" Json.null = Json.arr (order.items.map Item.toJson) ∧
    (∃ ts, jsonGetD body "instructionTimestamp" Json.null = Json.str ts ∧
      isIso8601Z ts = true) := by
  rcases env with ⟨res, ch, rel, pub, cu, iu, now⟩
  rcases res with ⟨status, rid⟩ | _
  · cases status
    case response.reserved =>
      cases ch
      case success tx =>
        cases pub
        case ok =>
          simp only [process_order_workflow, List.mem_append, List.mem_cons,
            List.mem_singleton, List.not_mem_nil, or_false, or_assoc] at h
          rcases h with h | h | h | h | h | h | h | h | h | h | h <;>
            first
            | exact Event.noConfusion h
            | · rcases Event.publish.inj h with ⟨hq, hb, hd⟩
                subst hq
                subst hb
                subst hd
                obtain ⟨hk, ho, hi, ht⟩ := shipment_message_fields iu now order.orderId order.items
                exact ⟨rfl, rfl, hk, ho, hi,
                  ⟨strftime_iso_z now, ht, strftime_iso_z_shape now⟩⟩
        case amqpError =>
          exact absurd h (by simp [process_order_workflow])
        case otherError =>
          cases rel <;> exact absurd h (by simp [process_order_workflow])
      all_goals cases rel <;> exact absurd h (by simp [process_order_workflow])
    all_goals exact absurd h (by simp [process_order_workflow])
  · exact absurd h (by simp [process_order_workflow])

/-- Witness for C8: the publish of the happy path. -/
theorem publish_shape_witness :
    ("wms.orders.new" : String) = "wms.orders.new" ∧ (2 : Nat) = 2 ∧
    (shipment_message "u2" tm0 "o1" [⟨"A", 2⟩]).map Prod.fst =
      ["instructionId", "orderId", "instructionTimestamp", "items", "shippingAddress"] ∧
    jsonGetD (shipment_message "u2" tm0 "o1" [⟨"A", 2⟩]) "orderId" Json.null =
      Json.str "o1" ∧
    jsonGetD (shipment_message "u2" tm0 "o1" [⟨"A", 2⟩]) "items" Json.null =
      Json.arr (([⟨"A", 2⟩] : List Item).map Item.toJson) ∧
    (∃ ts, jsonGetD (shipment_message "u2" tm0 "o1" [⟨"A", 2⟩])
        "instructionTimestamp" Json.null = Json.str ts ∧ isIso8601Z ts = true) :=
  publish_shape envHappy orderS1 "wms.orders.new"
    (shipment_message "u2" tm0 "o1" [⟨"A", 2⟩]) 2
    (by simp [process_order_workflow, envHappy, orderS1, tm0])

end OrderIntegration
